import Mathlib

/-!
Verification of the session lifecycle controller of a WhatsApp automation
HTTP service (single source file `src/index.js`).

The program is a Node.js module holding process-wide mutable state
(`qrCodeData`, `isAuthenticated`, `isReady`, `webhookUrl`, `isListening`,
`lastReadyAt`, `restarting`), event handlers installed on an external
messaging client, a guarded recovery routine `hardRestart`, a periodic
watchdog, and Express endpoints.  We embed the state as a structure and
each synchronous code segment (a handler body, or the portion of an async
function between suspension points) as a pure function on that structure.
Externally visible side effects (destroying the client, deleting cache
directories, sleeping, re-entering initialization) are recorded as an
action trace.  Spec-level phases are tracked alongside the code state in a
reachability relation so that spec claims mentioning `phase` can be
compared with the flags the code actually consults.
-/

set_option autoImplicit false

/-- Runtime state: one field per module-level mutable variable of
`src/index.js` (lines 24-31).  `clientSet` models whether the `client`
variable has been assigned (line 64); timestamps are integer milliseconds
as returned by `Date.now()`.  JS `null` is `none`. -/
structure SessionState where
  qrCodeData : Option String
  isAuthenticated : Bool
  isReady : Bool
  webhookUrl : Option String
  isListening : Bool
  lastReadyAt : Option Int
  restarting : Bool
  clientSet : Bool
deriving DecidableEq, Repr

/-- State at process start: all variables `null` / `false` (lines 24-31). -/
def st0 : SessionState :=
  { qrCodeData := none
    isAuthenticated := false
    isReady := false
    webhookUrl := none
    isListening := false
    lastReadyAt := none
    restarting := false
    clientSet := false }

/-- JS truthiness of a nullable string: `null` and the empty string are
falsy, everything else truthy. -/
def jsTruthyStr : Option String → Bool
  | none => false
  | some str => if str = "" then false else true

/-- JS `Number` coercion of a nullable integer: `Number(null) = 0`
(relevant to `now - lastReadyAt` at line 183 when `lastReadyAt` is null). -/
def jsNumber : Option Int → Int
  | none => 0
  | some n => n

/-- Boolean prefix test on character lists (structural, kernel-reducible). -/
def charsHavePrefix : List Char → List Char → Bool
  | [], _ => true
  | _ :: _, [] => false
  | a :: as, b :: bs => a == b && charsHavePrefix as bs

/-- Boolean infix test on character lists (structural, kernel-reducible). -/
def charsHaveInfix (sub : List Char) : List Char → Bool
  | [] => charsHavePrefix sub []
  | b :: bs => charsHavePrefix sub (b :: bs) || charsHaveInfix sub bs

/-- JS `String.prototype.includes`: substring containment test. -/
def jsIncludes (s sub : String) : Bool :=
  charsHaveInfix sub.toList s.toList

/-- `formatJID` (lines 39-44): address normalization.  A falsy input maps
to `null`; an input containing the domain separator passes through; an
input containing the group marker gets the group-chat suffix; all others
get the individual-chat suffix. -/
def formatJID : Option String → Option String
  | none => none
  | some n =>
    if n = "" then none
    else if jsIncludes n ("@") then some n
    else if jsIncludes n ("-") then some (n ++ ("@g.us"))
    else some (n ++ ("@c.us"))

/-- `resetRuntimeState` (lines 46-50): clears the QR payload and the two
session flags, touching nothing else. -/
def resetRuntimeState (s : SessionState) : SessionState :=
  { s with qrCodeData := none, isAuthenticated := false, isReady := false }

/-- Synchronous prefix of `initializeClient` (lines 56-64): guard check on
`restarting`, set the guard, reset the runtime state, construct the client.
The rest of the function body (installing handlers and awaiting
`client.initialize()`) does not mutate the stored state. -/
def initializeClient (s : SessionState) : SessionState :=
  if s.restarting then s
  else
    { (resetRuntimeState { s with restarting := true }) with clientSet := true }

/-- Modelled from the spec: QR image encoding (the external `qrcode`
library, line 99), an out-of-scope collaborator; only that it produces a
non-null data URL for the raw payload matters to any claim. -/
def qrcode_toDataURL (qr : String) : String :=
  ("data:image/png;base64,") ++ qr

/-- Handler for the `qr` event (lines 97-102): store the encoded payload,
clear both session flags. -/
def client_on_qr (qr : String) (s : SessionState) : SessionState :=
  { s with qrCodeData := some (qrcode_toDataURL qr)
           isAuthenticated := false
           isReady := false }

/-- Handler for the `authenticated` event (lines 104-107): sets the
authenticated flag and nothing else — in particular it does not clear
`qrCodeData`. -/
def client_on_authenticated (s : SessionState) : SessionState :=
  { s with isAuthenticated := true }

/-- Handler for the `ready` event (lines 109-116): sets both flags, clears
the QR payload, records the current time, clears the restart guard. -/
def client_on_ready (now : Int) (s : SessionState) : SessionState :=
  { s with isAuthenticated := true
           isReady := true
           qrCodeData := none
           lastReadyAt := some now
           restarting := false }

/-- Externally visible side effects of the recovery routine and its
re-entry into initialization, in program order. -/
inductive Act where
  | setGuard : Act
  | destroyAttempt (failed : Bool) : Act
  | rmSync (dir : String) : Act
  | sleep (ms : Nat) : Act
  | clearGuard : Act
  | initClient : Act
deriving DecidableEq, Repr

/-- `hardRestart` (lines 152-173) run to completion, as a state transformer
plus action trace.  The guard is checked and set synchronously before the
first suspension point (lines 153-155).  `df` records whether the
best-effort `client.destroy()` threw (the `catch` at line 162 swallows it
either way, so it only appears in the trace).  `fs.rmSync` is called with
`force: true`, so absence of a directory or a deletion failure never throws
(lines 166-167).  After the settle delay the guard is cleared and
`initializeClient` is re-entered (lines 170-172). -/
def hardRestart (wipeAuth df : Bool) (s : SessionState) : SessionState × List Act :=
  if s.restarting then (s, [])
  else
    let s1 := { s with restarting := true }
    let destroyActs := if s1.clientSet then [Act.destroyAttempt df] else []
    let wipeActs :=
      if wipeAuth then [Act.rmSync (".wwebjs_auth"), Act.rmSync (".wwebjs_cache")] else []
    let s2 := { s1 with restarting := false }
    (initializeClient s2,
      Act.setGuard :: (destroyActs ++ wipeActs ++ [Act.sleep 5000, Act.clearGuard, Act.initClient]))

/-- Handler for the `auth_failure` event (lines 135-138): invoke recovery
with credential wipe, from any state. -/
def client_on_auth_failure (df : Bool) (s : SessionState) : SessionState × List Act :=
  hardRestart true df s

/-- Handler for the `disconnected` event (lines 140-143): invoke recovery
without credential wipe, from any state. -/
def client_on_disconnected (df : Bool) (s : SessionState) : SessionState × List Act :=
  hardRestart false df s

/-- Normalized webhook payload posted on inbound messages (lines 122-129). -/
structure WebhookPayload where
  from_ : String
  body : String
  timestamp : Int
  chatId : String
  isGroup : Bool
  hasMedia : Bool
deriving DecidableEq, Repr

/-- Inbound message as delivered by the adapter (`msg` at line 118). -/
structure Msg where
  from_ : String
  body : String
  timestamp : Int
  hasMedia : Bool
deriving DecidableEq, Repr

/-- Handler for the `message` event (lines 118-133): when listening and a
truthy webhook URL is configured, attempt one POST of the normalized
payload; `deliveryFails` records whether that POST failed (the `catch` at
line 130 only logs, so the state is returned unchanged either way and the
flag never reaches the state). -/
def client_on_message (m : Msg) (deliveryFails : Bool) (s : SessionState) :
    SessionState × Option WebhookPayload :=
  if !s.isListening || !(jsTruthyStr s.webhookUrl) then (s, none)
  else
    let _ := deliveryFails
    (s, some { from_ := m.from_
               body := m.body
               timestamp := m.timestamp
               chatId := m.from_
               isGroup := jsIncludes m.from_ ("@g.us")
               hasMedia := m.hasMedia })

/-- Watchdog period (line 190): the `setInterval` runs every 60 seconds. -/
def watchdogPeriodMs : Nat := 60 * 1000

/-- Staleness threshold (line 186): 15 minutes in milliseconds. -/
def staleThresholdMs : Int := 15 * 60 * 1000

/-- One watchdog tick (lines 179-190): no-op unless `isReady`; otherwise
compare `now - lastReadyAt` against the threshold and invoke recovery
without credential wipe when strictly exceeded. -/
def watchdogTick (now : Int) (df : Bool) (s : SessionState) : SessionState × List Act :=
  if !s.isReady then (s, [])
  else if now - jsNumber s.lastReadyAt > staleThresholdMs then hardRestart false df s
  else (s, [])

/-- Outcome of `POST /send` (lines 215-226) visible in the embedding:
either the 503-equivalent rejection or an attempted `sendMessage` with the
normalized address and the raw message. -/
inductive SendResult where
  | notReady : SendResult
  | sendAttempt (jid : Option String) (message : Option String) : SendResult
deriving DecidableEq, Repr

/-- `POST /send` (lines 215-226): reject with 503 unless `isReady`,
otherwise send to `formatJID(to)`. -/
def app_post_send (toAddr message : Option String) (s : SessionState) : SendResult :=
  if !s.isReady then SendResult.notReady
  else SendResult.sendAttempt (formatJID toAddr) message

/-- Outcome of `POST /reply` (lines 228-243) visible in the embedding. -/
inductive ReplyResult where
  | notReady : ReplyResult
  | sendAttempt (chatId replyText quotedMessageId : Option String) : ReplyResult
deriving DecidableEq, Repr

/-- `POST /reply` (lines 228-243): reject with 503 unless `isReady`,
otherwise send `replyText` to the raw `chatId` quoting `messageId`. -/
def app_post_reply (chatId messageId replyText : Option String) (s : SessionState) : ReplyResult :=
  if !s.isReady then ReplyResult.notReady
  else ReplyResult.sendAttempt chatId replyText messageId

/-- `GET /listen` (lines 259-262): enables relaying, touching nothing else. -/
def app_get_listen (s : SessionState) : SessionState :=
  { s with isListening := true }

/-- `POST /webhook/set` (lines 264-267): stores the given URL
unconditionally, touching nothing else. -/
def app_post_webhook_set (url : Option String) (s : SessionState) : SessionState :=
  { s with webhookUrl := url }

/-- Spec-level phases of the session state machine (spec sections 3 and
4.1). -/
inductive Phase where
  | Uninitialized : Phase
  | Initializing : Phase
  | AwaitingQR : Phase
  | Authenticated : Phase
  | Ready : Phase
  | Restarting : Phase
deriving DecidableEq, Repr

/-- Reachable configurations: the code state evolved by the synchronous
segments of `src/index.js`, paired with the spec phase evolved by the
transition table of spec section 4.1.  `recoveryEnter` is the synchronous
prefix of `hardRestart` (guard check and set, lines 153-155) executed by
the `auth_failure` / `disconnected` handlers or the watchdog when the
guard is clear; the state then rests there across the suspension points of
`destroy()` and the settle delay, during which HTTP handlers observe it.
`recoveryDone` is the tail of `hardRestart` (lines 170-172): guard
cleared, `initializeClient` re-entered.  `listenToggle` and
`webhookConfig` are the two configuration endpoints. -/
inductive Reach : SessionState × Phase → Prop where
  | boot : Reach (st0, Phase.Uninitialized)
  | init {s : SessionState} {ph : Phase} :
      Reach (s, ph) → s.restarting = false →
      Reach (initializeClient s, Phase.Initializing)
  | qrEvent {s : SessionState} (q : String) :
      Reach (s, Phase.Initializing) →
      Reach (client_on_qr q s, Phase.AwaitingQR)
  | authFromAwaiting {s : SessionState} :
      Reach (s, Phase.AwaitingQR) →
      Reach (client_on_authenticated s, Phase.Authenticated)
  | authFromInitializing {s : SessionState} :
      Reach (s, Phase.Initializing) →
      Reach (client_on_authenticated s, Phase.Authenticated)
  | readyEvent {s : SessionState} {ph : Phase} (now : Int) :
      Reach (s, ph) →
      Reach (client_on_ready now s, Phase.Ready)
  | recoveryEnter {s : SessionState} {ph : Phase} :
      Reach (s, ph) → s.restarting = false →
      Reach ({ s with restarting := true }, Phase.Restarting)
  | recoveryDone {s : SessionState} :
      Reach (s, Phase.Restarting) →
      Reach (initializeClient { s with restarting := false }, Phase.Initializing)
  | listenToggle {s : SessionState} {ph : Phase} :
      Reach (s, ph) → Reach (app_get_listen s, ph)
  | webhookConfig {s : SessionState} {ph : Phase} (u : Option String) :
      Reach (s, ph) → Reach (app_post_webhook_set u s, ph)

/-- Overlapping recovery triggers: each trigger in turn executes the
synchronous entry segment of `hardRestart` (lines 153-155) before any
in-flight recovery has cleared the guard — the single-threaded event loop
interleaves the triggers only at suspension points, which all come after
the check-then-set.  Returns the final state and how many triggers got
past the guard. -/
def runRecoveryEntries : SessionState → List Bool → SessionState × Nat
  | s, [] => (s, 0)
  | s, _ :: ws =>
    if s.restarting then runRecoveryEntries s ws
    else
      let r := runRecoveryEntries { s with restarting := true } ws
      (r.1, r.2 + 1)

/-- The configuration the state rests in while a recovery triggered by
`disconnected` from a ready session is suspended at `destroy()` or at the
settle delay: the guard is set but `isReady` is still true. -/
def duringRecovery : SessionState :=
  { client_on_ready 100 (initializeClient st0) with restarting := true }

/-- Linking invariant between the code flags and the spec phase, proved
for every reachable configuration: the `Ready` phase coincides with
`isReady` being set while the restart guard is clear; `AwaitingQR` holds a
QR payload; a ready session holds no QR payload; a QR payload survives at
most into `Authenticated`; and every phase strictly between two `ready`
events keeps the restart guard set (the code only clears `restarting` in
the `ready` handler and at line 171 of the recovery routine, which
immediately re-enters initialization). -/
def LinkInv (c : SessionState × Phase) : Prop :=
  (c.2 = Phase.Ready → c.1.isReady = true ∧ c.1.restarting = false) ∧
  (c.1.isReady = true → c.1.restarting = false → c.2 = Phase.Ready) ∧
  (c.2 = Phase.AwaitingQR → c.1.qrCodeData.isSome = true) ∧
  (c.1.isReady = true → c.1.qrCodeData = none) ∧
  (c.1.qrCodeData.isSome = true → c.2 = Phase.AwaitingQR ∨ c.2 = Phase.Authenticated) ∧
  ((c.2 = Phase.Initializing ∨ c.2 = Phase.AwaitingQR ∨ c.2 = Phase.Authenticated ∨
      c.2 = Phase.Restarting) → c.1.restarting = true)

theorem reach_inv {c : SessionState × Phase} (h : Reach c) : LinkInv c := by
  induction h with
  | boot => simp [LinkInv, st0]
  | init h hg ih =>
      simp [LinkInv, initializeClient, resetRuntimeState, hg]
  | qrEvent q h ih =>
      rename_i s
      simp only [LinkInv] at ih ⊢
      have hr : s.restarting = true := ih.2.2.2.2.2 (by simp)
      simp [client_on_qr, hr]
  | authFromAwaiting h ih =>
      rename_i s
      simp only [LinkInv] at ih ⊢
      obtain ⟨-, -, -, i4, -, i6⟩ := ih
      have hr : s.restarting = true := i6 (by simp)
      refine ⟨by simp, ?_, by simp, ?_, by simp, ?_⟩
      · simp [client_on_authenticated, hr]
      · simpa [client_on_authenticated] using i4
      · simp [client_on_authenticated, hr]
  | authFromInitializing h ih =>
      rename_i s
      simp only [LinkInv] at ih ⊢
      obtain ⟨-, -, -, i4, i5, i6⟩ := ih
      have hr : s.restarting = true := i6 (by simp)
      have hq : s.qrCodeData.isSome = false := by
        cases hqs : s.qrCodeData.isSome
        · rfl
        · rcases i5 hqs with h1 | h1 <;> simp at h1
      refine ⟨by simp, ?_, by simp, ?_, ?_, ?_⟩
      · simp [client_on_authenticated, hr]
      · simpa [client_on_authenticated] using i4
      · simp [client_on_authenticated, hq]
      · simp [client_on_authenticated, hr]
  | readyEvent now h ih =>
      simp [LinkInv, client_on_ready]
  | recoveryEnter h hg ih =>
      rename_i s ph
      simp only [LinkInv] at ih ⊢
      obtain ⟨-, -, -, i4, i5, i6⟩ := ih
      have hq : s.qrCodeData.isSome = false := by
        cases hqs : s.qrCodeData.isSome
        · rfl
        · rcases i5 hqs with h1 | h1
          · exact absurd (i6 (Or.inr (Or.inl h1))) (by simp [hg])
          · exact absurd (i6 (Or.inr (Or.inr (Or.inl h1)))) (by simp [hg])
      refine ⟨by simp, by simp, by simp, ?_, ?_, by simp⟩
      · simpa using i4
      · simp [hq]
  | recoveryDone h ih =>
      simp [LinkInv, initializeClient, resetRuntimeState]
  | listenToggle h ih =>
      simpa [LinkInv, app_get_listen] using ih
  | webhookConfig u h ih =>
      simpa [LinkInv, app_post_webhook_set] using ih

theorem hardRestart_guarded {s : SessionState} (w df : Bool) (h : s.restarting = true) :
    hardRestart w df s = (s, []) := by
  simp [hardRestart, h]

theorem hardRestart_trace_ne {s : SessionState} (w df : Bool) (h : s.restarting = false) :
    (hardRestart w df s).2 ≠ [] := by
  simp [hardRestart, h]

theorem hardRestart_no_rm_of_not_wipe {s : SessionState} (df : Bool) (d : String) :
    Act.rmSync d ∉ (hardRestart false df s).2 := by
  by_cases h : s.restarting <;> by_cases hc : s.clientSet <;>
    simp [hardRestart, h, hc]

theorem initializeClient_frame (s : SessionState) :
    (initializeClient s).webhookUrl = s.webhookUrl ∧
    (initializeClient s).isListening = s.isListening := by
  by_cases h : s.restarting <;> simp [initializeClient, resetRuntimeState, h]

theorem hardRestart_frame (w df : Bool) (s : SessionState) :
    (hardRestart w df s).1.webhookUrl = s.webhookUrl ∧
    (hardRestart w df s).1.isListening = s.isListening := by
  by_cases h : s.restarting
  · simp [hardRestart, h]
  · simp only [hardRestart, h]
    simp [initializeClient, resetRuntimeState]

theorem watchdogTick_frame (now : Int) (df : Bool) (s : SessionState) :
    (watchdogTick now df s).1.webhookUrl = s.webhookUrl ∧
    (watchdogTick now df s).1.isListening = s.isListening := by
  unfold watchdogTick
  split
  · simp
  · split
    · exact hardRestart_frame false df s
    · simp

theorem runRecoveryEntries_guarded {s : SessionState} (ws : List Bool)
    (h : s.restarting = true) : runRecoveryEntries s ws = (s, 0) := by
  induction ws with
  | nil => rfl
  | cons w ws ih => simp [runRecoveryEntries, h, ih]

theorem watchdogTick_fires (now : Int) (df : Bool) (s : SessionState) :
    (watchdogTick now df s).2 ≠ [] ↔
      (s.isReady = true ∧ s.restarting = false ∧
        now - jsNumber s.lastReadyAt > staleThresholdMs) := by
  by_cases hrdy : s.isReady <;>
    by_cases hst : now - jsNumber s.lastReadyAt > staleThresholdMs <;>
      by_cases hg : s.restarting <;>
        simp [watchdogTick, hrdy, hst, hg, hardRestart]

/-- C1: the recovery routine checks the `restarting` guard synchronously
before its first suspension point and is a pure no-op (state unchanged, no
destroy, no deletion) when the guard is already set; otherwise its first
effect is setting the guard, so among any batch of overlapping recovery
triggers fired from an unguarded state exactly one gets past the guard and
performs the recovery steps while the rest are no-ops. -/
theorem hardRestart_guard_exclusive (s : SessionState) (w df : Bool) (ws : List Bool) :
    (s.restarting = true → hardRestart w df s = (s, [])) ∧
    (s.restarting = false → (hardRestart w df s).2.head? = some Act.setGuard) ∧
    (s.restarting = false → ws ≠ [] → (runRecoveryEntries s ws).2 = 1) ∧
    (s.restarting = true → (runRecoveryEntries s ws).2 = 0) := by
  refine ⟨fun hg => hardRestart_guarded w df hg, fun hg => by simp [hardRestart, hg],
    fun hg hne => ?_, fun hg => by rw [runRecoveryEntries_guarded ws hg]⟩
  cases ws with
  | nil => exact absurd rfl hne
  | cons w2 ws2 =>
      simp [runRecoveryEntries, hg, runRecoveryEntries_guarded ws2 (show
        ({ s with restarting := true } : SessionState).restarting = true from rfl)]

/-- Witness for C1: from the initial (unguarded) state, of three
overlapping recovery triggers exactly one gets past the guard. -/
theorem hardRestart_guard_exclusive_witness :
    (runRecoveryEntries st0 [true, false, false]).2 = 1 :=
  (hardRestart_guard_exclusive st0 true false [true, false, false]).2.2.1 rfl (by decide)

/-- C2: in every state, the `auth_failure` handler invokes the recovery
routine with credential wipe = true and the `disconnected` handler invokes
it with credential wipe = false; when the guard is clear the former's
trace deletes both cache directories and the latter's deletes none. -/
theorem authFailure_disconnected_invoke_recovery (s : SessionState) (df : Bool) :
    client_on_auth_failure df s = hardRestart true df s ∧
    client_on_disconnected df s = hardRestart false df s ∧
    (s.restarting = false →
      Act.rmSync (".wwebjs_auth") ∈ (client_on_auth_failure df s).2 ∧
      Act.rmSync (".wwebjs_cache") ∈ (client_on_auth_failure df s).2 ∧
      ∀ d : String, Act.rmSync d ∉ (client_on_disconnected df s).2) := by
  refine ⟨rfl, rfl, fun hg => ⟨?_, ?_, fun d => hardRestart_no_rm_of_not_wipe df d⟩⟩
  · by_cases hc : s.clientSet <;> simp [client_on_auth_failure, hardRestart, hg, hc]
  · by_cases hc : s.clientSet <;> simp [client_on_auth_failure, hardRestart, hg, hc]

/-- Witness for C2 at the initial state: the `auth_failure` handler's
recovery deletes the auth cache directory. -/
theorem authFailure_disconnected_invoke_recovery_witness :
    Act.rmSync (".wwebjs_auth") ∈ (client_on_auth_failure false st0).2 :=
  ((authFailure_disconnected_invoke_recovery st0 false).2.2 rfl).1

/-- C3 (amended): in every reachable configuration, phase `AwaitingQR`
implies a non-null `qrPayload`, a non-null `qrPayload` implies the phase
is `AwaitingQR` or `Authenticated`, and a ready session has a null
`qrPayload` — transitions into `Ready` and reinitialization clear the
payload, but the `authenticated` event leaves it unchanged. -/
theorem qrPayload_phase_invariant {c : SessionState × Phase} (h : Reach c) :
    (c.2 = Phase.AwaitingQR → c.1.qrCodeData.isSome = true) ∧
    (c.1.qrCodeData.isSome = true → c.2 = Phase.AwaitingQR ∨ c.2 = Phase.Authenticated) ∧
    (c.1.isReady = true → c.1.qrCodeData = none) := by
  have hi := reach_inv h
  exact ⟨hi.2.2.1, hi.2.2.2.2.1, hi.2.2.2.1⟩

/-- Witness for C3 at the reachable configuration reached by qr("ABC"):
the phase is `AwaitingQR` and the payload is non-null. -/
theorem qrPayload_phase_invariant_witness :
    (client_on_qr ("ABC") (initializeClient st0)).qrCodeData.isSome = true := by
  have h : Reach (client_on_qr ("ABC") (initializeClient st0), Phase.AwaitingQR) :=
    Reach.qrEvent ("ABC") (Reach.init Reach.boot rfl)
  exact (qrPayload_phase_invariant h).1 rfl

/-- C3 counterexample: the reachable configuration obtained by qr("ABC")
followed by authenticated() is in phase `Authenticated` while `qrPayload`
is still non-null, and the `authenticated` handler left the payload
untouched — refuting both the claimed iff and the claim that the
`authenticated` event clears `qrPayload`. -/
theorem qrPayload_iff_awaitingQR_ce :
    Reach (client_on_authenticated (client_on_qr ("ABC") (initializeClient st0)),
      Phase.Authenticated) ∧
    (client_on_authenticated (client_on_qr ("ABC") (initializeClient st0))).qrCodeData.isSome
      = true ∧
    Phase.Authenticated ≠ Phase.AwaitingQR ∧
    (client_on_authenticated (client_on_qr ("ABC") (initializeClient st0))).qrCodeData =
      (client_on_qr ("ABC") (initializeClient st0)).qrCodeData :=
  ⟨Reach.authFromAwaiting (Reach.qrEvent ("ABC") (Reach.init Reach.boot rfl)),
    rfl, by decide, rfl⟩

/-- C4: the `ready` handler, from any state, sets both the ready and
authenticated flags, clears the QR payload, records `lastReadyAt` as the
time of the transition, and clears the restart guard; in the concrete
scenario qr("ABC") then ready() with no intervening authenticated(), the
final configuration is in phase `Ready` with a null `qrPayload` and the
authenticated flag set. -/
theorem ready_event_effects (s : SessionState) (now : Int) :
    client_on_ready now s =
      { s with isAuthenticated := true, isReady := true, qrCodeData := none,
               lastReadyAt := some now, restarting := false } ∧
    Reach (client_on_ready 200 (client_on_qr ("ABC") (initializeClient st0)), Phase.Ready) ∧
    (client_on_ready 200 (client_on_qr ("ABC") (initializeClient st0))).isReady = true ∧
    (client_on_ready 200 (client_on_qr ("ABC") (initializeClient st0))).qrCodeData = none ∧
    (client_on_ready 200 (client_on_qr ("ABC") (initializeClient st0))).isAuthenticated = true :=
  ⟨rfl, Reach.readyEvent 200 (Reach.qrEvent ("ABC") (Reach.init Reach.boot rfl)),
    rfl, rfl, rfl⟩

/-- C5: once entered (guard clear, client constructed), the recovery
routine performs in order: guard set, best-effort destroy with any failure
swallowed, exactly when wipe = true the recursive deletion of both cache
directories, a fixed 5-second settle delay, guard clear, and re-entry into
initialization; the resulting state is independent of whether destroy
failed, and afterwards the guard is held by the reinitialization with the
ready flag cleared. -/
theorem hardRestart_sequence (s : SessionState) (w df : Bool)
    (hg : s.restarting = false) (hc : s.clientSet = true) :
    hardRestart w df s =
      (initializeClient { s with restarting := false },
        Act.setGuard :: Act.destroyAttempt df ::
          ((if w then [Act.rmSync (".wwebjs_auth"), Act.rmSync (".wwebjs_cache")] else []) ++
            [Act.sleep 5000, Act.clearGuard, Act.initClient])) ∧
    (hardRestart w true s).1 = (hardRestart w false s).1 ∧
    ((Act.rmSync (".wwebjs_auth") ∈ (hardRestart w df s).2) ↔ w = true) ∧
    ((Act.rmSync (".wwebjs_cache") ∈ (hardRestart w df s).2) ↔ w = true) ∧
    (hardRestart w df s).1.restarting = true ∧
    (hardRestart w df s).1.isReady = false := by
  refine ⟨?_, ?_, ?_, ?_, ?_, ?_⟩
  · simp [hardRestart, hg, hc]
  · simp [hardRestart, hg]
  · by_cases hw : w <;> simp [hardRestart, hg, hc, hw]
  · by_cases hw : w <;> simp [hardRestart, hg, hc, hw]
  · simp [hardRestart, hg, initializeClient, resetRuntimeState]
  · simp [hardRestart, hg, initializeClient, resetRuntimeState]

/-- Witness for C5 at a concrete ready state: recovery with wipe deletes
the auth cache directory. -/
theorem hardRestart_sequence_witness :
    Act.rmSync (".wwebjs_auth") ∈
      (hardRestart true false (client_on_ready 100 (initializeClient st0))).2 :=
  ((hardRestart_sequence (client_on_ready 100 (initializeClient st0)) true false
    rfl rfl).2.2.1).mpr rfl

/-- C6: the watchdog runs on a fixed 60-second period; from every
reachable configuration a tick performs a recovery (non-empty effect
trace, never deleting credentials) exactly when the phase is `Ready` and
the time elapsed since `lastReadyAt` strictly exceeds the 15-minute
staleness threshold, and a tick that does not fire leaves the state
unchanged. -/
theorem watchdog_stale_trigger {c : SessionState × Phase} (h : Reach c)
    (now : Int) (df : Bool) :
    watchdogPeriodMs = 60 * 1000 ∧
    ((watchdogTick now df c.1).2 ≠ [] ↔
      (c.2 = Phase.Ready ∧ now - jsNumber c.1.lastReadyAt > staleThresholdMs)) ∧
    ((watchdogTick now df c.1).2 = [] → (watchdogTick now df c.1).1 = c.1) ∧
    (∀ d : String, Act.rmSync d ∉ (watchdogTick now df c.1).2) := by
  have hi := reach_inv h
  have hready : c.2 = Phase.Ready ↔ (c.1.isReady = true ∧ c.1.restarting = false) :=
    ⟨fun hR => hi.1 hR, fun hx => hi.2.1 hx.1 hx.2⟩
  refine ⟨rfl, ?_, ?_, ?_⟩
  · rw [watchdogTick_fires now df c.1, hready]
    constructor
    · rintro ⟨h1, h2, h3⟩
      exact ⟨⟨h1, h2⟩, h3⟩
    · rintro ⟨⟨h1, h2⟩, h3⟩
      exact ⟨h1, h2, h3⟩
  · intro hemp
    by_cases hrdy : c.1.isReady
    · by_cases hst : now - jsNumber c.1.lastReadyAt > staleThresholdMs
      · by_cases hgd : c.1.restarting
        · simp [watchdogTick, hrdy, hst, hardRestart_guarded false df hgd]
        · exact absurd hemp (by simp [watchdogTick, hrdy, hst, hardRestart, hgd])
      · simp [watchdogTick, hrdy, hst]
    · simp [watchdogTick, hrdy]
  · intro d
    by_cases hrdy : c.1.isReady
    · by_cases hst : now - jsNumber c.1.lastReadyAt > staleThresholdMs
      · simpa [watchdogTick, hrdy, hst] using hardRestart_no_rm_of_not_wipe df d
      · simp [watchdogTick, hrdy, hst]
    · simp [watchdogTick, hrdy]

/-- Witness for C6 at a concrete ready configuration more than fifteen
minutes after `lastReadyAt`: the tick fires. -/
theorem watchdog_stale_trigger_witness :
    (watchdogTick 1000000 false (client_on_ready 100 (initializeClient st0))).2 ≠ [] := by
  have h : Reach (client_on_ready 100 (initializeClient st0), Phase.Ready) :=
    Reach.readyEvent 100 (Reach.init Reach.boot rfl)
  exact ((watchdog_stale_trigger h 1000000 false).2.1).mpr ⟨rfl, by decide⟩

/-- C7 (amended): `/send` and `/reply` return the 503-equivalent
rejection exactly when the `isReady` flag is false, for every payload;
since recovery does not clear `isReady` (only the reset inside
reinitialization does), a request arriving during an in-flight recovery
triggered from `Ready` still proceeds. -/
theorem send_reply_require_isReady (s : SessionState)
    (toAddr message chatId messageId replyText : Option String) :
    (app_post_send toAddr message s = SendResult.notReady ↔ s.isReady = false) ∧
    (app_post_reply chatId messageId replyText s = ReplyResult.notReady ↔
      s.isReady = false) := by
  by_cases hrdy : s.isReady <;> simp [app_post_send, app_post_reply, hrdy]

/-- C7 counterexample: a reachable configuration in phase `Restarting` —
recovery entered from `Ready` by the `disconnected` handler and suspended
before reinitialization — on which `/send` and `/reply` do not return the
503-equivalent rejection but proceed to send. -/
theorem send_during_restart_ce :
    Reach (duringRecovery, Phase.Restarting) ∧
    duringRecovery.restarting = true ∧
    duringRecovery.isReady = true ∧
    app_post_send (some ("12345")) (some ("hello")) duringRecovery ≠ SendResult.notReady ∧
    app_post_reply (some ("1@c.us")) (some ("m1")) (some ("hi")) duringRecovery ≠
      ReplyResult.notReady :=
  ⟨Reach.recoveryEnter (Reach.readyEvent 100 (Reach.init Reach.boot rfl)) rfl,
    rfl, rfl, by decide, by decide⟩

/-- C8: address normalization: a non-empty identifier containing the
domain separator passes through unchanged, otherwise one containing the
group marker receives the group-chat suffix, and all others the
individual-chat suffix; concretely "123456789" maps to "123456789@c.us",
"123-456@g.us" passes through, and "123-456" maps to "123-456@g.us". -/
theorem formatJID_normalization (n : String) (h : n ≠ "") :
    (jsIncludes n ("@") = true → formatJID (some n) = some n) ∧
    (jsIncludes n ("@") = false → jsIncludes n ("-") = true →
      formatJID (some n) = some (n ++ ("@g.us"))) ∧
    (jsIncludes n ("@") = false → jsIncludes n ("-") = false →
      formatJID (some n) = some (n ++ ("@c.us"))) ∧
    formatJID (some ("123456789")) = some ("123456789@c.us") ∧
    formatJID (some ("123-456@g.us")) = some ("123-456@g.us") ∧
    formatJID (some ("123-456")) = some ("123-456@g.us") := by
  refine ⟨?_, ?_, ?_, by decide, by decide, by decide⟩
  · intro h1
    simp [formatJID, h, h1]
  · intro h1 h2
    simp [formatJID, h, h1, h2]
  · intro h1 h2
    simp [formatJID, h, h1, h2]

/-- Witness for C8: a bare numeric identifier receives the
individual-chat suffix. -/
theorem formatJID_normalization_witness :
    formatJID (some ("123456789")) = some ("123456789@c.us") :=
  (formatJID_normalization ("123456789") (by decide)).2.2.2.1

/-- C9: on each inbound message a webhook POST is attempted exactly when
`listening` is set and a (truthy) webhook URL is configured; the payload
is exactly from, body, timestamp, chatId = from, isGroup = (from contains
the group domain suffix), hasMedia; and a delivery failure leaves every
state field unchanged — it never feeds back and is never retried. -/
theorem message_webhook_relay (s : SessionState) (m : Msg) (df : Bool) :
    (client_on_message m df s).1 = s ∧
    client_on_message m true s = client_on_message m false s ∧
    ((client_on_message m df s).2.isSome = true ↔
      (s.isListening = true ∧ jsTruthyStr s.webhookUrl = true)) ∧
    (s.isListening = true → jsTruthyStr s.webhookUrl = true →
      (client_on_message m df s).2 =
        some { from_ := m.from_, body := m.body, timestamp := m.timestamp,
               chatId := m.from_, isGroup := jsIncludes m.from_ ("@g.us"),
               hasMedia := m.hasMedia }) := by
  by_cases hl : s.isListening <;> by_cases hw : jsTruthyStr s.webhookUrl <;>
    simp [client_on_message, hl, hw]

/-- Witness for C9: with listening enabled and a webhook URL configured,
an inbound message produces a webhook POST attempt. -/
theorem message_webhook_relay_witness :
    (client_on_message (⟨"77-88@g.us", "hi", 5, false⟩ : Msg) false
      (app_post_webhook_set (some ("http://example.test/hook"))
        (app_get_listen st0))).2.isSome = true := by
  have h := message_webhook_relay
    (app_post_webhook_set (some ("http://example.test/hook")) (app_get_listen st0))
    (⟨"77-88@g.us", "hi", 5, false⟩ : Msg) false
  exact h.2.2.1.mpr ⟨rfl, by decide⟩

/-- C10: `webhookUrl` and `isListening` survive every adapter event,
recovery and reinitialization unchanged; the runtime reset clears exactly
the QR payload and the two session flags; and the only operations that
modify `isListening` or `webhookUrl` are the `/listen` and `/webhook/set`
endpoints, each touching only its own field. -/
theorem config_fields_frame (s : SessionState) (q : String) (now ts : Int) (m : Msg)
    (w df : Bool) (uo : Option String) :
    resetRuntimeState s =
      { s with qrCodeData := none, isAuthenticated := false, isReady := false } ∧
    (initializeClient s).webhookUrl = s.webhookUrl ∧
    (initializeClient s).isListening = s.isListening ∧
    (client_on_qr q s).webhookUrl = s.webhookUrl ∧
    (client_on_qr q s).isListening = s.isListening ∧
    (client_on_authenticated s).webhookUrl = s.webhookUrl ∧
    (client_on_authenticated s).isListening = s.isListening ∧
    (client_on_ready now s).webhookUrl = s.webhookUrl ∧
    (client_on_ready now s).isListening = s.isListening ∧
    (client_on_message m df s).1.webhookUrl = s.webhookUrl ∧
    (client_on_message m df s).1.isListening = s.isListening ∧
    (hardRestart w df s).1.webhookUrl = s.webhookUrl ∧
    (hardRestart w df s).1.isListening = s.isListening ∧
    (client_on_auth_failure df s).1.webhookUrl = s.webhookUrl ∧
    (client_on_auth_failure df s).1.isListening = s.isListening ∧
    (client_on_disconnected df s).1.webhookUrl = s.webhookUrl ∧
    (client_on_disconnected df s).1.isListening = s.isListening ∧
    (watchdogTick ts df s).1.webhookUrl = s.webhookUrl ∧
    (watchdogTick ts df s).1.isListening = s.isListening ∧
    app_get_listen s = { s with isListening := true } ∧
    app_post_webhook_set uo s = { s with webhookUrl := uo } := by
  have h1 := initializeClient_frame s
  have h2 := hardRestart_frame w df s
  have h2a := hardRestart_frame true df s
  have h2b := hardRestart_frame false df s
  have h3 := watchdogTick_frame ts df s
  have hm : (client_on_message m df s).1 = s := by
    by_cases hl : s.isListening <;> by_cases hw : jsTruthyStr s.webhookUrl <;>
      simp [client_on_message, hl, hw]
  refine ⟨rfl, h1.1, h1.2, rfl, rfl, rfl, rfl, rfl, rfl, ?_, ?_, h2.1, h2.2,
    h2a.1, h2a.2, h2b.1, h2b.2, h3.1, h3.2, rfl, rfl⟩
  · rw [hm]
  · rw [hm]
